import Mathlib

/-!
Shallow embedding of `be/src/vec/exec/scan/scanner_scheduler.h` from the
Doris backend: the scan-task scheduling layer (`ScannerScheduler`,
`SimplifiedScanTask`, `SimplifiedScanScheduler`).

Modelling conventions:
* C++ `int` is embedded as `Int`.
* `Status` is embedded as an inductive with an `ok` and an error case.
* The external thread-pool collaborator (`util/threadpool.h`, specified only
  at its interface boundary) is embedded as a record `ThreadPool` whose
  mutating interface calls (`set_min_threads`, `set_max_threads`,
  `submit_func`) may succeed or fail; the success of a `set_*` call is an
  oracle `Bool` argument, since the pool is external and its failure
  conditions are not part of this translation unit.
* `std::unique_ptr<ThreadPool> _scan_thread_pool` is `Option ThreadPool`
  (`none` is the null pointer before `start()`); an operation that would
  dereference the null pointer returns `none` (undefined behaviour / crash).
* `std::shared_ptr<ScannerContext>` inside a `SimplifiedScanTask` is
  `Option Nat`: `some c` is a shared owning reference to the context with
  identity `c`, `none` is the default `nullptr`.
* Pool-queued closures `[scan_task] \x7b scan_task.scan_func(); \x7d` capture the
  `SimplifiedScanTask` by value, so the queue is a `List SimplifiedScanTask`.
* Each reconfiguration operation additionally returns the ordered trace of
  interface calls it issued (`List PoolCall`, which can also express lock
  acquisition events), the intermediate pool states after each mutating
  call, and the log lines it emitted, so that ordering, intermediate-state
  and logging claims can be stated.
-/

namespace Doris

/-- Embedded `doris::Status`: either OK or an error carrying a message. -/
inductive Status where
  | ok : Status
  | internalError (msg : String) : Status
  deriving Repr, DecidableEq

/-- Translation of `Status::ok()`. -/
def Status.isOk : Status → Bool
  | .ok => true
  | .internalError _ => false

/-- One interface call issued by the scheduler to its backing thread pool,
or an acquisition/release of the scheduler's own `_lock`. -/
inductive PoolCall where
  | setMaxThreads (n : Int) : PoolCall
  | setMinThreads (n : Int) : PoolCall
  | submitFunc : PoolCall
  | shutdown : PoolCall
  | wait : PoolCall
  | lockAcquire : PoolCall
  | lockRelease : PoolCall
  deriving Repr, DecidableEq

/-- Whether a `PoolCall` is an acquisition or release of the scheduler's
own `_lock` member. -/
def PoolCall.isLockEvent : PoolCall → Bool
  | .lockAcquire => true
  | .lockRelease => true
  | _ => false

/-- Embedded `struct SimplifiedScanTask`: pairs an executable unit
(`std::function<void()> scan_func`, embedded as an opaque identity) with a
shared owning reference to its `ScannerContext`
(`std::shared_ptr<vectorized::ScannerContext> scanner_context`, default
`nullptr`, embedded as `Option Nat` over context identities). -/
structure SimplifiedScanTask where
  scan_func : Nat
  scanner_context : Option Nat := none
  deriving Repr, DecidableEq

/-- Embedded state of the external thread-pool collaborator, at the
interface boundary used by `scanner_scheduler.h`: min/max thread bounds, a
fixed queue capacity, the queue of captured closures, a shutdown flag, and
introspection data (`num_active_threads`, `debug_info`). -/
structure ThreadPool where
  minThreads : Int
  maxThreads : Int
  maxQueueSize : Int
  queue : List SimplifiedScanTask
  isShutdown : Bool
  numActive : Int
  debugInfo : List Int
  deriving Repr, DecidableEq

/-- External `ThreadPool::set_max_threads(n)`: returns a `Status`; on
success the max bound becomes `n`, on failure the pool is unchanged. The
`succeeds` oracle stands for the external pool accepting or rejecting the
new bound. -/
def ThreadPool.set_max_threads (p : ThreadPool) (n : Int) (succeeds : Bool) :
    Status × ThreadPool :=
  if succeeds then (Status.ok, { p with maxThreads := n })
  else (Status.internalError "set_max_threads rejected", p)

/-- External `ThreadPool::set_min_threads(n)`: returns a `Status`; on
success the min bound becomes `n`, on failure the pool is unchanged. -/
def ThreadPool.set_min_threads (p : ThreadPool) (n : Int) (succeeds : Bool) :
    Status × ThreadPool :=
  if succeeds then (Status.ok, { p with minThreads := n })
  else (Status.internalError "set_min_threads rejected", p)

/-- External `ThreadPool::submit_func(closure)`: fails if the pool is shut
down; fails fast if the bounded queue is at capacity (admission
backpressure, never a wait); otherwise appends the captured closure to the
queue. -/
def ThreadPool.submit_func (p : ThreadPool) (t : SimplifiedScanTask) :
    Status × ThreadPool :=
  if p.isShutdown then (Status.internalError "pool is shut down", p)
  else if (p.queue.length : Int) < p.maxQueueSize then
    (Status.ok, { p with queue := p.queue ++ [t] })
  else (Status.internalError "queue is full", p)

/-- External `ThreadPool::shutdown()`: the pool stops accepting work. -/
def ThreadPool.shutdown : ThreadPool → ThreadPool :=
  fun p => { p with isShutdown := true }

/-- The head closure of the queue completes and is removed: the by-value
captured `SimplifiedScanTask` it held is destroyed with it. -/
def ThreadPool.runHead (p : ThreadPool) : ThreadPool :=
  { p with queue := p.queue.drop 1 }

/-- Number of shared owning references a queued closure of pool `p` holds
to the context with identity `c`: every by-value captured task whose
`scanner_context` is `some c` contributes one. -/
def ThreadPool.queuedContextRefs (p : ThreadPool) (c : Nat) : Nat :=
  p.queue.countP (fun t => t.scanner_context = some c)

/-- Total shared-ownership count of context `c`: external holders plus the
references held by closures queued in pool `p`. The context's shared state
is valid exactly while this count is positive. -/
def contextOwners (externalRefs : Nat) (p : ThreadPool) (c : Nat) : Nat :=
  externalRefs + p.queuedContextRefs c

/-- Embedded `class SimplifiedScanScheduler`: the members of the C++ class,
in declaration order. `_scan_thread_pool` is a `std::unique_ptr`, null
until `start()` builds the pool; `_cgroup_cpu_ctl` is a `std::weak_ptr`
(non-owning, embedded as an opaque optional identity); `_lock` is a
`std::shared_mutex` with no embedded state of its own (acquisitions appear
as `PoolCall.lockAcquire` events in operation traces). -/
structure SimplifiedScanScheduler where
  _scan_thread_pool : Option ThreadPool
  _is_stop : Bool
  _cgroup_cpu_ctl : Option Nat
  _sched_name : String
  _workload_group : String
  deriving Repr, DecidableEq

/-- Translation of the `SimplifiedScanScheduler` constructor: `_is_stop` is
initialised to `false`, the pool pointer is null until `start()`. -/
def SimplifiedScanScheduler.construct (sched_name : String)
    (cgroup_cpu_ctl : Option Nat) (workload_group : String) :
    SimplifiedScanScheduler :=
  { _scan_thread_pool := none
    _is_stop := false
    _cgroup_cpu_ctl := cgroup_cpu_ctl
    _sched_name := sched_name
    _workload_group := workload_group }

/-- Result of `SimplifiedScanScheduler::start`: the returned `Status` and
the updated scheduler, plus the trace of lock/pool calls issued. -/
structure StartOutcome where
  status : Status
  sched : SimplifiedScanScheduler
  calls : List PoolCall
  deriving Repr, DecidableEq

/-- Translation of `SimplifiedScanScheduler::start(max_thread_num,
min_thread_num, queue_size)`: builds the backing pool via
`ThreadPoolBuilder` with the given min/max bounds and max queue size;
`RETURN_IF_ERROR` propagates a build failure (the `buildOk` oracle stands
for the external builder succeeding), otherwise returns `Status::OK()`. -/
def SimplifiedScanScheduler.start (s : SimplifiedScanScheduler)
    (max_thread_num min_thread_num queue_size : Int) (buildOk : Bool) :
    StartOutcome :=
  if buildOk then
    let builtPool : ThreadPool :=
      { minThreads := min_thread_num
        maxThreads := max_thread_num
        maxQueueSize := queue_size
        queue := []
        isShutdown := false
        numActive := 0
        debugInfo := [] }
    { status := Status.ok
      sched := { s with _scan_thread_pool := some builtPool }
      calls := [] }
  else
    { status := Status.internalError "ThreadPoolBuilder build failed"
      sched := s
      calls := [] }

/-- Result of `SimplifiedScanScheduler::stop`: the updated scheduler and
the trace of lock/pool calls issued. -/
structure StopOutcome where
  sched : SimplifiedScanScheduler
  calls : List PoolCall
  deriving Repr, DecidableEq

/-- Translation of `SimplifiedScanScheduler::stop()`: stores `true` into
`_is_stop`, then calls `_scan_thread_pool->shutdown()` and
`_scan_thread_pool->wait()`. With a null pool pointer the dereference is
undefined behaviour: the result is `none`. -/
def SimplifiedScanScheduler.stop (s : SimplifiedScanScheduler) :
    Option StopOutcome :=
  match s._scan_thread_pool with
  | none => none
  | some pool =>
      some { sched := { s with _is_stop := true,
                               _scan_thread_pool := some pool.shutdown }
             calls := [PoolCall.shutdown, PoolCall.wait] }

/-- Translation of `SimplifiedScanScheduler::submit_scan_task(scan_task)`:
if `_is_stop` is not set, captures `scan_task` by value in a closure and
hands it to `_scan_thread_pool->submit_func` (null pool pointer: `none`);
otherwise returns `Status::InternalError("scanner pool ... is shutdown.")`
without touching the pool. -/
def SimplifiedScanScheduler.submit_scan_task (s : SimplifiedScanScheduler)
    (scan_task : SimplifiedScanTask) :
    Option (Status × SimplifiedScanScheduler) :=
  if !s._is_stop then
    match s._scan_thread_pool with
    | none => none
    | some pool =>
        let r := pool.submit_func scan_task
        some (r.1, { s with _scan_thread_pool := some r.2 })
  else
    some (Status.internalError
            ("scanner pool " ++ s._sched_name ++ " is shutdown."), s)

/-- Result of a resize operation: the updated scheduler, the ordered trace
of lock/pool calls issued, the intermediate pool states after each
mutating pool call, and the emitted log lines. -/
structure ResetOutcome where
  sched : SimplifiedScanScheduler
  calls : List PoolCall
  mids : List ThreadPool
  logs : List String
  deriving Repr, DecidableEq

/-- Translation of `SimplifiedScanScheduler::reset_thread_num(new_max_thread_num,
new_min_thread_num)`: reads the current bounds; returns without any pool
call if both are unchanged; otherwise, when `new_max_thread_num` is at
least the current max, calls `set_max_threads` then `set_min_threads`,
else `set_min_threads` then `set_max_threads`; a failed call is logged
with `LOG(WARNING)` and the function returns `void` regardless. The two
oracles give the success of the first and second `set_*` call in issue
order. A null pool pointer makes the first read undefined behaviour
(`none`). -/
def SimplifiedScanScheduler.reset_thread_num (s : SimplifiedScanScheduler)
    (new_max_thread_num new_min_thread_num : Int) (okFirst okSecond : Bool) :
    Option ResetOutcome :=
  match s._scan_thread_pool with
  | none => none
  | some pool =>
      let cur_max_thread_num := pool.maxThreads
      let cur_min_thread_num := pool.minThreads
      if cur_max_thread_num = new_max_thread_num ∧
         cur_min_thread_num = new_min_thread_num then
        some { sched := s, calls := [], mids := [], logs := [] }
      else if new_max_thread_num ≥ cur_max_thread_num then
        let rMax := pool.set_max_threads new_max_thread_num okFirst
        let logMax := if rMax.1.isOk then []
          else ["Failed to set max threads for scan thread pool"]
        let rMin := rMax.2.set_min_threads new_min_thread_num okSecond
        let logMin := if rMin.1.isOk then []
          else ["Failed to set min threads for scan thread pool"]
        some { sched := { s with _scan_thread_pool := some rMin.2 }
               calls := [PoolCall.setMaxThreads new_max_thread_num,
                         PoolCall.setMinThreads new_min_thread_num]
               mids := [rMax.2, rMin.2]
               logs := logMax ++ logMin }
      else
        let rMin := pool.set_min_threads new_min_thread_num okFirst
        let logMin := if rMin.1.isOk then []
          else ["Failed to set min threads for scan thread pool"]
        let rMax := rMin.2.set_max_threads new_max_thread_num okSecond
        let logMax := if rMax.1.isOk then []
          else ["Failed to set max threads for scan thread pool"]
        some { sched := { s with _scan_thread_pool := some rMax.2 }
               calls := [PoolCall.setMinThreads new_min_thread_num,
                         PoolCall.setMaxThreads new_max_thread_num]
               mids := [rMin.2, rMax.2]
               logs := logMin ++ logMax }

/-- Translation of `SimplifiedScanScheduler::reset_max_thread_num(thread_num)`:
reads the current max; if it differs from `thread_num`, calls
`set_max_threads` and logs on failure; returns `void` either way. -/
def SimplifiedScanScheduler.reset_max_thread_num (s : SimplifiedScanScheduler)
    (thread_num : Int) (okSet : Bool) : Option ResetOutcome :=
  match s._scan_thread_pool with
  | none => none
  | some pool =>
      let max_thread_num := pool.maxThreads
      if max_thread_num ≠ thread_num then
        let r := pool.set_max_threads thread_num okSet
        let lg := if r.1.isOk then []
          else ["reset max thread num failed, sche name=" ++ s._sched_name]
        some { sched := { s with _scan_thread_pool := some r.2 }
               calls := [PoolCall.setMaxThreads thread_num]
               mids := [r.2]
               logs := lg }
      else
        some { sched := s, calls := [], mids := [], logs := [] }

/-- Translation of `SimplifiedScanScheduler::reset_min_thread_num(thread_num)`:
reads the current min; if it differs from `thread_num`, calls
`set_min_threads` and logs on failure; returns `void` either way. -/
def SimplifiedScanScheduler.reset_min_thread_num (s : SimplifiedScanScheduler)
    (thread_num : Int) (okSet : Bool) : Option ResetOutcome :=
  match s._scan_thread_pool with
  | none => none
  | some pool =>
      let min_thread_num := pool.minThreads
      if min_thread_num ≠ thread_num then
        let r := pool.set_min_threads thread_num okSet
        let lg := if r.1.isOk then []
          else ["reset min thread num failed, sche name=" ++ s._sched_name]
        some { sched := { s with _scan_thread_pool := some r.2 }
               calls := [PoolCall.setMinThreads thread_num]
               mids := [r.2]
               logs := lg }
      else
        some { sched := s, calls := [], mids := [], logs := [] }

/-- Translation of `SimplifiedScanScheduler::get_queue_size()`:
`_scan_thread_pool->get_queue_size()` (null pool pointer: `none`). -/
def SimplifiedScanScheduler.get_queue_size (s : SimplifiedScanScheduler) :
    Option Int :=
  match s._scan_thread_pool with
  | none => none
  | some pool => some (pool.queue.length : Int)

/-- Translation of `SimplifiedScanScheduler::get_active_threads()`:
`_scan_thread_pool->num_active_threads()` (null pool pointer: `none`). -/
def SimplifiedScanScheduler.get_active_threads (s : SimplifiedScanScheduler) :
    Option Int :=
  match s._scan_thread_pool with
  | none => none
  | some pool => some pool.numActive

/-- Translation of `SimplifiedScanScheduler::get_max_threads()`:
`_scan_thread_pool->max_threads()` (null pool pointer: `none`). -/
def SimplifiedScanScheduler.get_max_threads (s : SimplifiedScanScheduler) :
    Option Int :=
  match s._scan_thread_pool with
  | none => none
  | some pool => some pool.maxThreads

/-- Translation of `SimplifiedScanScheduler::thread_debug_info()`:
`_scan_thread_pool->debug_info()` (null pool pointer: `none`). -/
def SimplifiedScanScheduler.thread_debug_info (s : SimplifiedScanScheduler) :
    Option (List Int) :=
  match s._scan_thread_pool with
  | none => none
  | some pool => some pool.debugInfo

/-- Lifecycle state of one `ScanTask` (per the spec data model:
pending, running, finished, failed, cancelled). -/
inductive TaskState where
  | pending : TaskState
  | running : TaskState
  | finished : TaskState
  | failed : TaskState
  | cancelled : TaskState
  deriving Repr, DecidableEq

/-- Embedded `ScanTask` at the boundary used here: its lifecycle state. -/
structure ScanTask where
  state : TaskState
  deriving Repr, DecidableEq

/-- Embedded members of `class ScannerScheduler` as declared in the
header: the atomic closed flag, the init flag, and the remote-pool sizing
parameter. -/
structure ScannerScheduler where
  _is_closed : Bool
  _is_init : Bool
  _remote_thread_pool_max_thread_num : Int
  deriving Repr, DecidableEq

/-- Modelled from the spec: `ScannerScheduler::stop()` is declared in
`scanner_scheduler.h` but defined in `scanner_scheduler.cpp`, which is not
among the sources. Per the spec it sets the closed flag, then shuts down
and drains the owned pool. Only the flag is visible at this boundary. -/
def ScannerScheduler.stop (s : ScannerScheduler) : ScannerScheduler :=
  { s with _is_closed := true }

/-- Modelled from the spec: `ScannerScheduler::submit(ctx, scan_task)` is
declared in `scanner_scheduler.h` but defined in `scanner_scheduler.cpp`,
which is not among the sources. Per the spec it fails with a rejection
error if the scheduler is closed (the atomic `_is_closed` flag causes all
submissions to fail), otherwise hands the task to the execution path; it
returns a `Status` and never throws, and on failure the task's state is
left unchanged so the caller may retry or fail the query. -/
def ScannerScheduler.submit (s : ScannerScheduler) (ctx : Nat)
    (scan_task : ScanTask) : Status × ScanTask :=
  if s._is_closed then
    (Status.internalError "scanner scheduler is closed", scan_task)
  else
    (Status.ok, { scan_task with state := TaskState.running })

/-- A concrete thread pool used by witnesses: bounds (min 1, max 4), queue
capacity 16, empty queue, running. -/
def examplePool : ThreadPool :=
  { minThreads := 1
    maxThreads := 4
    maxQueueSize := 16
    queue := []
    isShutdown := false
    numActive := 0
    debugInfo := [] }

/-- A concrete started scheduler used by witnesses: `examplePool` behind
the pool pointer, not stopped. -/
def exampleSched : SimplifiedScanScheduler :=
  { _scan_thread_pool := some examplePool
    _is_stop := false
    _cgroup_cpu_ctl := none
    _sched_name := "local_scan"
    _workload_group := "system" }

/-- A concrete task owning a shared reference to context 7. -/
def exampleTask : SimplifiedScanTask :=
  { scan_func := 0, scanner_context := some 7 }

/-- The concrete outcome of `exampleSched.stop`. -/
def exampleStopOutcome : StopOutcome :=
  let stopped : SimplifiedScanScheduler :=
    { exampleSched with _is_stop := true,
                        _scan_thread_pool := some examplePool.shutdown }
  { sched := stopped
    calls := [PoolCall.shutdown, PoolCall.wait] }

/-- The concrete outcome of submitting `exampleTask` to `exampleSched`. -/
def exampleSubmitRes : Status × SimplifiedScanScheduler :=
  let enqueuedPool : ThreadPool := { examplePool with queue := [exampleTask] }
  (Status.ok, { exampleSched with _scan_thread_pool := some enqueuedPool })

/-- C7: `reset_thread_num(M, m)` is a no-op (issues no `set_min_threads` or
`set_max_threads` call and leaves the scheduler and pool state unchanged)
whenever `M` equals the current max and `m` equals the current min;
likewise `reset_max_thread_num(n)` and `reset_min_thread_num(n)` issue no
pool call when `n` equals the corresponding current bound. -/
theorem C7_resize_noop_when_unchanged
    (s : SimplifiedScanScheduler) (p : ThreadPool)
    (hp : s._scan_thread_pool = some p) :
    (∀ ok1 ok2 : Bool,
        s.reset_thread_num p.maxThreads p.minThreads ok1 ok2 =
          some { sched := s, calls := [], mids := [], logs := [] }) ∧
    (∀ ok : Bool,
        s.reset_max_thread_num p.maxThreads ok =
          some { sched := s, calls := [], mids := [], logs := [] }) ∧
    (∀ ok : Bool,
        s.reset_min_thread_num p.minThreads ok =
          some { sched := s, calls := [], mids := [], logs := [] }) := by
  refine ⟨fun ok1 ok2 => ?_, fun ok => ?_, fun ok => ?_⟩ <;>
    simp [SimplifiedScanScheduler.reset_thread_num,
          SimplifiedScanScheduler.reset_max_thread_num,
          SimplifiedScanScheduler.reset_min_thread_num, hp]

/-- Witness for C7 at the concrete started scheduler `exampleSched`. -/
theorem C7_witness :
    (∀ ok1 ok2 : Bool,
        exampleSched.reset_thread_num examplePool.maxThreads
          examplePool.minThreads ok1 ok2 =
          some { sched := exampleSched, calls := [], mids := [], logs := [] }) ∧
    (∀ ok : Bool,
        exampleSched.reset_max_thread_num examplePool.maxThreads ok =
          some { sched := exampleSched, calls := [], mids := [], logs := [] }) ∧
    (∀ ok : Bool,
        exampleSched.reset_min_thread_num examplePool.minThreads ok =
          some { sched := exampleSched, calls := [], mids := [], logs := [] }) :=
  C7_resize_noop_when_unchanged exampleSched examplePool rfl

/-- C2: on a `SimplifiedScanScheduler` on which `stop()` has been called,
every subsequent `submit_scan_task(task)` returns an internal error naming
the pool, and the scheduler (hence the pool and its queue) is returned
unchanged: the closure capturing the task is never handed to the pool, so
it never executes. -/
theorem C2_submit_after_stop_rejected
    (s : SimplifiedScanScheduler) (out : StopOutcome)
    (t : SimplifiedScanTask) (h : s.stop = some out) :
    out.sched.submit_scan_task t =
      some (Status.internalError
              ("scanner pool " ++ out.sched._sched_name ++ " is shutdown."),
            out.sched) := by
  cases hp : s._scan_thread_pool with
  | none => simp [SimplifiedScanScheduler.stop, hp] at h
  | some pool =>
      simp only [SimplifiedScanScheduler.stop, hp] at h
      rw [← Option.some_inj.mp h]
      simp [SimplifiedScanScheduler.submit_scan_task]

/-- Witness for C2: `exampleSched` stopped, then a submission rejected. -/
theorem C2_witness :
    exampleStopOutcome.sched.submit_scan_task exampleTask =
      some (Status.internalError
              ("scanner pool " ++ exampleStopOutcome.sched._sched_name ++
               " is shutdown."),
            exampleStopOutcome.sched) :=
  C2_submit_after_stop_rejected exampleSched exampleStopOutcome exampleTask rfl

/-- C3: on a `ScannerScheduler` whose `stop()` has set the closed flag,
every subsequent `submit(ctx, task)` returns a rejection-error status (as
a returned value, never a thrown exception: the embedded `submit` is a
total function into `Status`) and leaves the submitted task's state
unchanged, so the caller may retry or fail the query. Settled against the
spec-modelled `ScannerScheduler.submit`, since its definition lives in
`scanner_scheduler.cpp`, which is not among the sources. -/
theorem C3_submit_after_close_rejected
    (s : ScannerScheduler) (ctx : Nat) (task : ScanTask) :
    s.stop.submit ctx task =
      (Status.internalError "scanner scheduler is closed", task) ∧
    (s.stop.submit ctx task).1.isOk = false := by
  exact ⟨rfl, rfl⟩

/-- C9: on a `SimplifiedScanScheduler` in the constructed state (`start()`
not yet called, so `_scan_thread_pool` is still the null pointer),
`submit_scan_task`, `stop`, every resize operation and every introspection
operation dereferences the null pool pointer (result `none`), because the
`_is_stop` guard in `submit_scan_task` rejects only the stopped state: on
the same scheduler with `_is_stop` set, `submit_scan_task` instead returns
the internal-error status without touching the pool. -/
theorem C9_constructed_state_null_dereference
    (sched_name workload_group : String) (cgroup_cpu_ctl : Option Nat)
    (t : SimplifiedScanTask) (M m n1 n2 : Int) (ok1 ok2 ok3 ok4 : Bool) :
    (SimplifiedScanScheduler.construct sched_name cgroup_cpu_ctl
        workload_group).submit_scan_task t = none ∧
    (SimplifiedScanScheduler.construct sched_name cgroup_cpu_ctl
        workload_group).stop = none ∧
    (SimplifiedScanScheduler.construct sched_name cgroup_cpu_ctl
        workload_group).reset_thread_num M m ok1 ok2 = none ∧
    (SimplifiedScanScheduler.construct sched_name cgroup_cpu_ctl
        workload_group).reset_max_thread_num n1 ok3 = none ∧
    (SimplifiedScanScheduler.construct sched_name cgroup_cpu_ctl
        workload_group).reset_min_thread_num n2 ok4 = none ∧
    (SimplifiedScanScheduler.construct sched_name cgroup_cpu_ctl
        workload_group).get_queue_size = none ∧
    (SimplifiedScanScheduler.construct sched_name cgroup_cpu_ctl
        workload_group).get_active_threads = none ∧
    (SimplifiedScanScheduler.construct sched_name cgroup_cpu_ctl
        workload_group).get_max_threads = none ∧
    (SimplifiedScanScheduler.construct sched_name cgroup_cpu_ctl
        workload_group).thread_debug_info = none ∧
    ({ SimplifiedScanScheduler.construct sched_name cgroup_cpu_ctl
         workload_group with _is_stop := true }).submit_scan_task t =
      some (Status.internalError
              ("scanner pool " ++ sched_name ++ " is shutdown."),
            { SimplifiedScanScheduler.construct sched_name cgroup_cpu_ctl
                workload_group with _is_stop := true }) := by
  exact ⟨rfl, rfl, rfl, rfl, rfl, rfl, rfl, rfl, rfl, rfl⟩

/-- C1: for every `SimplifiedScanScheduler` whose pool currently satisfies
`min ≤ max`, a call `reset_thread_num(M2, m2)` with `m2 ≤ M2` in which
both underlying set calls succeed performs the two-phase update in the
order max-then-min when `M2 ≥` current max and min-then-max otherwise, the
bounds observed immediately after the call equal `(M2, m2)`, and no pool
state between or after the two set calls ever satisfies `min > max`. -/
theorem C1_reset_thread_num_two_phase
    (s : SimplifiedScanScheduler) (p : ThreadPool) (M2 m2 : Int)
    (hp : s._scan_thread_pool = some p)
    (hinv : p.minThreads ≤ p.maxThreads)
    (hpre : m2 ≤ M2) :
    ∃ out, s.reset_thread_num M2 m2 true true = some out ∧
      (∃ q, out.sched._scan_thread_pool = some q ∧
            q.maxThreads = M2 ∧ q.minThreads = m2) ∧
      (∀ q ∈ out.mids, q.minThreads ≤ q.maxThreads) ∧
      (¬(p.maxThreads = M2 ∧ p.minThreads = m2) →
        out.calls = if M2 ≥ p.maxThreads
          then [PoolCall.setMaxThreads M2, PoolCall.setMinThreads m2]
          else [PoolCall.setMinThreads m2, PoolCall.setMaxThreads M2]) := by
  simp only [SimplifiedScanScheduler.reset_thread_num, hp,
             ThreadPool.set_max_threads, ThreadPool.set_min_threads,
             if_true, Status.isOk]
  by_cases hsame : p.maxThreads = M2 ∧ p.minThreads = m2
  · rw [if_pos hsame]
    exact ⟨_, rfl, ⟨p, hp, hsame.1, hsame.2⟩, by simp,
           fun hne => absurd hsame hne⟩
  · rw [if_neg hsame]
    by_cases hgrow : M2 ≥ p.maxThreads
    · rw [if_pos hgrow]
      refine ⟨_, rfl, ⟨_, rfl, rfl, rfl⟩, ?_, fun _ => by rw [if_pos hgrow]⟩
      intro q hq
      rcases List.mem_cons.mp hq with h | h
      · subst h; simpa using le_trans hinv hgrow
      · rcases List.mem_cons.mp h with h2 | h2
        · subst h2; simpa using hpre
        · simp at h2
    · rw [if_neg hgrow]
      refine ⟨_, rfl, ⟨_, rfl, rfl, rfl⟩, ?_, fun _ => by rw [if_neg hgrow]⟩
      intro q hq
      rcases List.mem_cons.mp hq with h | h
      · subst h; simp; omega
      · rcases List.mem_cons.mp h with h2 | h2
        · subst h2; simpa using hpre
        · simp at h2

/-- Witness for C1: growing `exampleSched` from bounds (4, 1) to (8, 2). -/
theorem C1_witness :
    ∃ out, exampleSched.reset_thread_num 8 2 true true = some out ∧
      (∃ q, out.sched._scan_thread_pool = some q ∧
            q.maxThreads = 8 ∧ q.minThreads = 2) ∧
      (∀ q ∈ out.mids, q.minThreads ≤ q.maxThreads) ∧
      (¬(examplePool.maxThreads = 8 ∧ examplePool.minThreads = 2) →
        out.calls = if (8 : Int) ≥ examplePool.maxThreads
          then [PoolCall.setMaxThreads 8, PoolCall.setMinThreads 2]
          else [PoolCall.setMinThreads 2, PoolCall.setMaxThreads 8]) :=
  C1_reset_thread_num_two_phase exampleSched examplePool 8 2 rfl
    (by decide) (by decide)

/-- C10: `reset_thread_num` performs no validation that
`new_min ≤ new_max`: a call with `new_min > new_max` (on a pool currently
satisfying `min ≤ max`) still issues both set calls, max first when
`new_max ≥` current max and min first otherwise, and when both set calls
succeed it leaves the pool with `max < min`: the `min ≤ max` invariant is
established only under the caller-supplied precondition
`new_min ≤ new_max`. -/
theorem C10_reset_thread_num_no_validation
    (s : SimplifiedScanScheduler) (p : ThreadPool) (M m : Int)
    (hp : s._scan_thread_pool = some p)
    (hinv : p.minThreads ≤ p.maxThreads)
    (hbad : M < m) :
    ∃ out, s.reset_thread_num M m true true = some out ∧
      out.calls = (if M ≥ p.maxThreads
        then [PoolCall.setMaxThreads M, PoolCall.setMinThreads m]
        else [PoolCall.setMinThreads m, PoolCall.setMaxThreads M]) ∧
      (∃ q, out.sched._scan_thread_pool = some q ∧
            q.minThreads = m ∧ q.maxThreads = M ∧
            q.maxThreads < q.minThreads) := by
  simp only [SimplifiedScanScheduler.reset_thread_num, hp,
             ThreadPool.set_max_threads, ThreadPool.set_min_threads,
             if_true, Status.isOk]
  have hsame : ¬(p.maxThreads = M ∧ p.minThreads = m) := by omega
  rw [if_neg hsame]
  by_cases hgrow : M ≥ p.maxThreads
  · rw [if_pos hgrow]
    exact ⟨_, rfl, by rw [if_pos hgrow],
           ⟨_, rfl, rfl, rfl, by simpa using hbad⟩⟩
  · rw [if_neg hgrow]
    exact ⟨_, rfl, by rw [if_neg hgrow],
           ⟨_, rfl, rfl, rfl, by simpa using hbad⟩⟩

/-- Witness for C10: shrinking `exampleSched` with the invalid pair
`(new_max, new_min) = (2, 5)` still issues both calls, min first. -/
theorem C10_witness :
    ∃ out, exampleSched.reset_thread_num 2 5 true true = some out ∧
      out.calls = (if (2 : Int) ≥ examplePool.maxThreads
        then [PoolCall.setMaxThreads 2, PoolCall.setMinThreads 5]
        else [PoolCall.setMinThreads 5, PoolCall.setMaxThreads 2]) ∧
      (∃ q, out.sched._scan_thread_pool = some q ∧
            q.minThreads = 5 ∧ q.maxThreads = 2 ∧
            q.maxThreads < q.minThreads) :=
  C10_reset_thread_num_no_validation exampleSched examplePool 2 5 rfl
    (by decide) (by decide)

/-- C5: every call to `reset_thread_num`, `reset_max_thread_num` or
`reset_min_thread_num` on a started scheduler returns normally for every
combination of success and failure of the underlying `set_min_threads` /
`set_max_threads` calls (the embedded operations return an outcome, never
a propagated `Status`), and a failed first sub-step leaves only a log
line: no resize call produces a query-affecting error. -/
theorem C5_resize_propagates_no_failure
    (s : SimplifiedScanScheduler) (p : ThreadPool)
    (hp : s._scan_thread_pool = some p)
    (M m n1 n2 : Int) (ok1 ok2 ok3 ok4 : Bool) :
    (∃ out, s.reset_thread_num M m ok1 ok2 = some out ∧
        (ok1 = false → out.calls ≠ [] → out.logs ≠ [])) ∧
    (∃ out, s.reset_max_thread_num n1 ok3 = some out ∧
        (ok3 = false → out.calls ≠ [] → out.logs ≠ [])) ∧
    (∃ out, s.reset_min_thread_num n2 ok4 = some out ∧
        (ok4 = false → out.calls ≠ [] → out.logs ≠ [])) := by
  refine ⟨?_, ?_, ?_⟩
  · simp only [SimplifiedScanScheduler.reset_thread_num, hp,
               ThreadPool.set_max_threads, ThreadPool.set_min_threads,
               Status.isOk]
    by_cases hsame : p.maxThreads = M ∧ p.minThreads = m
    · rw [if_pos hsame]; exact ⟨_, rfl, by simp⟩
    · rw [if_neg hsame]
      by_cases hgrow : M ≥ p.maxThreads
      · rw [if_pos hgrow]
        cases ok1 <;> cases ok2 <;> exact ⟨_, rfl, by simp⟩
      · rw [if_neg hgrow]
        cases ok1 <;> cases ok2 <;> exact ⟨_, rfl, by simp⟩
  · simp only [SimplifiedScanScheduler.reset_max_thread_num, hp,
               ThreadPool.set_max_threads, Status.isOk]
    by_cases hne : p.maxThreads ≠ n1
    · rw [if_pos hne]; cases ok3 <;> exact ⟨_, rfl, by simp⟩
    · rw [if_neg hne]; exact ⟨_, rfl, by simp⟩
  · simp only [SimplifiedScanScheduler.reset_min_thread_num, hp,
               ThreadPool.set_min_threads, Status.isOk]
    by_cases hne : p.minThreads ≠ n2
    · rw [if_pos hne]; cases ok4 <;> exact ⟨_, rfl, by simp⟩
    · rw [if_neg hne]; exact ⟨_, rfl, by simp⟩

/-- Witness for C5: both underlying set calls fail on `exampleSched`. -/
theorem C5_witness :
    (∃ out, exampleSched.reset_thread_num 8 2 false false = some out ∧
        (false = false → out.calls ≠ [] → out.logs ≠ [])) ∧
    (∃ out, exampleSched.reset_max_thread_num 9 false = some out ∧
        (false = false → out.calls ≠ [] → out.logs ≠ [])) ∧
    (∃ out, exampleSched.reset_min_thread_num 0 false = some out ∧
        (false = false → out.calls ≠ [] → out.logs ≠ [])) :=
  C5_resize_propagates_no_failure exampleSched examplePool rfl
    8 2 9 0 false false false false

/-- C6: the pool queue capacity of a started `SimplifiedScanScheduler` is
fixed by the `queue_size` argument of `start()` and is left unchanged by
every `reset_thread_num`, `reset_max_thread_num` and
`reset_min_thread_num` call, whatever the outcome of the underlying set
calls: resize operations alter only the min and max thread bounds (queue
capacity, queue contents, shutdown flag, active-thread count, debug info
and all other scheduler fields are preserved). -/
theorem C6_queue_capacity_fixed_at_start
    (s : SimplifiedScanScheduler) (p : ThreadPool)
    (hp : s._scan_thread_pool = some p)
    (M0 m0 qs M m n1 n2 : Int) (ok1 ok2 ok3 ok4 : Bool) :
    (∃ q, (s.start M0 m0 qs true).sched._scan_thread_pool = some q ∧
        q.maxQueueSize = qs) ∧
    (∃ out q, s.reset_thread_num M m ok1 ok2 = some out ∧
        out.sched._scan_thread_pool = some q ∧
        q.maxQueueSize = p.maxQueueSize ∧ q.queue = p.queue ∧
        q.isShutdown = p.isShutdown ∧ q.numActive = p.numActive ∧
        q.debugInfo = p.debugInfo ∧ out.sched._is_stop = s._is_stop ∧
        out.sched._sched_name = s._sched_name) ∧
    (∃ out q, s.reset_max_thread_num n1 ok3 = some out ∧
        out.sched._scan_thread_pool = some q ∧
        q.maxQueueSize = p.maxQueueSize ∧ q.queue = p.queue ∧
        q.isShutdown = p.isShutdown ∧ q.numActive = p.numActive ∧
        q.debugInfo = p.debugInfo ∧ q.minThreads = p.minThreads ∧
        out.sched._is_stop = s._is_stop) ∧
    (∃ out q, s.reset_min_thread_num n2 ok4 = some out ∧
        out.sched._scan_thread_pool = some q ∧
        q.maxQueueSize = p.maxQueueSize ∧ q.queue = p.queue ∧
        q.isShutdown = p.isShutdown ∧ q.numActive = p.numActive ∧
        q.debugInfo = p.debugInfo ∧ q.maxThreads = p.maxThreads ∧
        out.sched._is_stop = s._is_stop) := by
  refine ⟨⟨_, rfl, rfl⟩, ?_, ?_, ?_⟩
  · simp only [SimplifiedScanScheduler.reset_thread_num, hp,
               ThreadPool.set_max_threads, ThreadPool.set_min_threads,
               Status.isOk]
    by_cases hsame : p.maxThreads = M ∧ p.minThreads = m
    · rw [if_pos hsame]
      exact ⟨_, p, rfl, hp, rfl, rfl, rfl, rfl, rfl, rfl, rfl⟩
    · rw [if_neg hsame]
      by_cases hgrow : M ≥ p.maxThreads
      · rw [if_pos hgrow]
        cases ok1 <;> cases ok2 <;>
          exact ⟨_, _, rfl, rfl, rfl, rfl, rfl, rfl, rfl, rfl, rfl⟩
      · rw [if_neg hgrow]
        cases ok1 <;> cases ok2 <;>
          exact ⟨_, _, rfl, rfl, rfl, rfl, rfl, rfl, rfl, rfl, rfl⟩
  · simp only [SimplifiedScanScheduler.reset_max_thread_num, hp,
               ThreadPool.set_max_threads, Status.isOk]
    by_cases hne : p.maxThreads ≠ n1
    · rw [if_pos hne]
      cases ok3 <;> exact ⟨_, _, rfl, rfl, rfl, rfl, rfl, rfl, rfl, rfl, rfl⟩
    · rw [if_neg hne]
      exact ⟨_, p, rfl, hp, rfl, rfl, rfl, rfl, rfl, rfl, rfl⟩
  · simp only [SimplifiedScanScheduler.reset_min_thread_num, hp,
               ThreadPool.set_min_threads, Status.isOk]
    by_cases hne : p.minThreads ≠ n2
    · rw [if_pos hne]
      cases ok4 <;> exact ⟨_, _, rfl, rfl, rfl, rfl, rfl, rfl, rfl, rfl, rfl⟩
    · rw [if_neg hne]
      exact ⟨_, p, rfl, hp, rfl, rfl, rfl, rfl, rfl, rfl, rfl⟩

/-- Witness for C6 at `exampleSched`, with failing set calls. -/
theorem C6_witness :
    (∃ q, (exampleSched.start 16 4 128 true).sched._scan_thread_pool =
            some q ∧ q.maxQueueSize = 128) ∧
    (∃ out q, exampleSched.reset_thread_num 8 2 false true = some out ∧
        out.sched._scan_thread_pool = some q ∧
        q.maxQueueSize = examplePool.maxQueueSize ∧
        q.queue = examplePool.queue ∧
        q.isShutdown = examplePool.isShutdown ∧
        q.numActive = examplePool.numActive ∧
        q.debugInfo = examplePool.debugInfo ∧
        out.sched._is_stop = exampleSched._is_stop ∧
        out.sched._sched_name = exampleSched._sched_name) ∧
    (∃ out q, exampleSched.reset_max_thread_num 9 true = some out ∧
        out.sched._scan_thread_pool = some q ∧
        q.maxQueueSize = examplePool.maxQueueSize ∧
        q.queue = examplePool.queue ∧
        q.isShutdown = examplePool.isShutdown ∧
        q.numActive = examplePool.numActive ∧
        q.debugInfo = examplePool.debugInfo ∧
        q.minThreads = examplePool.minThreads ∧
        out.sched._is_stop = exampleSched._is_stop) ∧
    (∃ out q, exampleSched.reset_min_thread_num 0 true = some out ∧
        out.sched._scan_thread_pool = some q ∧
        q.maxQueueSize = examplePool.maxQueueSize ∧
        q.queue = examplePool.queue ∧
        q.isShutdown = examplePool.isShutdown ∧
        q.numActive = examplePool.numActive ∧
        q.debugInfo = examplePool.debugInfo ∧
        q.maxThreads = examplePool.maxThreads ∧
        out.sched._is_stop = exampleSched._is_stop) :=
  C6_queue_capacity_fixed_at_start exampleSched examplePool rfl
    16 4 128 8 2 9 0 false true true true

/-- C4: a task admitted via `submit_scan_task` is captured by value inside
the pool-queued closure, together with its shared owning reference to the
`ScannerContext`: the queue of the resulting pool ends with the submitted
task, the context's total ownership count is positive even with zero
external references (so its shared state stays valid while the closure is
queued), and once the closure completes (here: it was the only queued
closure and is removed) the ownership count falls back to exactly the
external references — the scheduler retains no ownership of the context
merely from having scheduled the task. -/
theorem C4_queued_closure_owns_context
    (s : SimplifiedScanScheduler) (p : ThreadPool) (t : SimplifiedScanTask)
    (c : Nat) (res : Status × SimplifiedScanScheduler)
    (hp : s._scan_thread_pool = some p)
    (hc : t.scanner_context = some c)
    (hsub : s.submit_scan_task t = some res)
    (hok : res.1 = Status.ok) :
    ∃ q, res.2._scan_thread_pool = some q ∧
      q.queue = p.queue ++ [t] ∧
      (∀ externalRefs : Nat, 0 < contextOwners externalRefs q c) ∧
      (p.queue = [] → ∀ externalRefs : Nat,
        contextOwners externalRefs q.runHead c = externalRefs) := by
  cases hst : s._is_stop with
  | true =>
      simp only [SimplifiedScanScheduler.submit_scan_task, hst,
                 Bool.not_true, if_neg] at hsub
      rw [← Option.some_inj.mp hsub] at hok
      simp at hok
  | false =>
      simp only [SimplifiedScanScheduler.submit_scan_task, hst, hp,
                 Bool.not_false, if_pos, ThreadPool.submit_func] at hsub
      by_cases hsd : p.isShutdown
      · rw [if_pos hsd] at hsub
        rw [← Option.some_inj.mp hsub] at hok
        simp at hok
      · rw [if_neg hsd] at hsub
        by_cases hroom : (p.queue.length : Int) < p.maxQueueSize
        · rw [if_pos hroom] at hsub
          rw [← Option.some_inj.mp hsub]
          refine ⟨_, rfl, rfl, fun externalRefs => ?_, fun hq0 externalRefs => ?_⟩
          · simp only [contextOwners, ThreadPool.queuedContextRefs,
                       List.countP_append, List.countP_cons, List.countP_nil, hc]
            simp
          · simp [contextOwners, ThreadPool.queuedContextRefs,
                  ThreadPool.runHead, hq0]
        · rw [if_neg hroom] at hsub
          rw [← Option.some_inj.mp hsub] at hok
          simp at hok

/-- Witness for C4: submitting `exampleTask` (owning context 7) to the
started `exampleSched` with an empty queue. -/
theorem C4_witness :
    ∃ q, exampleSubmitRes.2._scan_thread_pool = some q ∧
      q.queue = examplePool.queue ++ [exampleTask] ∧
      (∀ externalRefs : Nat, 0 < contextOwners externalRefs q 7) ∧
      (examplePool.queue = [] → ∀ externalRefs : Nat,
        contextOwners externalRefs q.runHead 7 = externalRefs) :=
  C4_queued_closure_owns_context exampleSched examplePool exampleTask 7
    exampleSubmitRes rfl rfl (by decide) rfl

/-- C8 counterexample: the claim states that every structural
reconfiguration operation executes its update inside a critical section of
the scheduler's own `_lock`; but the concrete call
`reset_thread_num(8, 2)` on the started `exampleSched` issues its two set
calls with no `_lock` acquisition or release anywhere in its trace. -/
theorem C8_counterexample :
    ∃ out, exampleSched.reset_thread_num 8 2 true true = some out ∧
      PoolCall.lockAcquire ∉ out.calls ∧ PoolCall.lockRelease ∉ out.calls := by
  refine ⟨_, rfl, ?_, ?_⟩ <;> decide

/-- C8 as amended: no structural reconfiguration operation of
`SimplifiedScanScheduler` (`start`, `stop`, `reset_thread_num`,
`reset_max_thread_num`, `reset_min_thread_num`) acquires the scheduler's
own `_lock`: the `_lock` member is declared but unused by these
operations, so their traces contain no lock event whatever the arguments
and set-call outcomes, and the scheduler's own lock does not serialize
reconfiguration calls against each other. -/
theorem C8_reconfig_never_acquires_lock
    (s : SimplifiedScanScheduler) (p : ThreadPool)
    (hp : s._scan_thread_pool = some p)
    (M0 m0 qs M m n1 n2 : Int) (buildOk ok1 ok2 ok3 ok4 : Bool) :
    ((s.start M0 m0 qs buildOk).calls.countP PoolCall.isLockEvent = 0) ∧
    (∃ out, s.stop = some out ∧
        out.calls.countP PoolCall.isLockEvent = 0) ∧
    (∃ out, s.reset_thread_num M m ok1 ok2 = some out ∧
        out.calls.countP PoolCall.isLockEvent = 0) ∧
    (∃ out, s.reset_max_thread_num n1 ok3 = some out ∧
        out.calls.countP PoolCall.isLockEvent = 0) ∧
    (∃ out, s.reset_min_thread_num n2 ok4 = some out ∧
        out.calls.countP PoolCall.isLockEvent = 0) := by
  refine ⟨?_, ?_, ?_, ?_, ?_⟩
  · cases buildOk <;> simp [SimplifiedScanScheduler.start]
  · simp only [SimplifiedScanScheduler.stop, hp]
    exact ⟨_, rfl, rfl⟩
  · simp only [SimplifiedScanScheduler.reset_thread_num, hp]
    by_cases hsame : p.maxThreads = M ∧ p.minThreads = m
    · rw [if_pos hsame]; exact ⟨_, rfl, rfl⟩
    · rw [if_neg hsame]
      by_cases hgrow : M ≥ p.maxThreads
      · rw [if_pos hgrow]
        exact ⟨_, rfl, by simp [List.countP_cons, PoolCall.isLockEvent]⟩
      · rw [if_neg hgrow]
        exact ⟨_, rfl, by simp [List.countP_cons, PoolCall.isLockEvent]⟩
  · simp only [SimplifiedScanScheduler.reset_max_thread_num, hp]
    by_cases hne : p.maxThreads ≠ n1
    · rw [if_pos hne]
      exact ⟨_, rfl, by simp [List.countP_cons, PoolCall.isLockEvent]⟩
    · rw [if_neg hne]; exact ⟨_, rfl, rfl⟩
  · simp only [SimplifiedScanScheduler.reset_min_thread_num, hp]
    by_cases hne : p.minThreads ≠ n2
    · rw [if_pos hne]
      exact ⟨_, rfl, by simp [List.countP_cons, PoolCall.isLockEvent]⟩
    · rw [if_neg hne]; exact ⟨_, rfl, rfl⟩

/-- Witness for the amended C8 at `exampleSched`. -/
theorem C8_witness :
    ((exampleSched.start 16 4 128 true).calls.countP PoolCall.isLockEvent
        = 0) ∧
    (∃ out, exampleSched.stop = some out ∧
        out.calls.countP PoolCall.isLockEvent = 0) ∧
    (∃ out, exampleSched.reset_thread_num 8 2 true true = some out ∧
        out.calls.countP PoolCall.isLockEvent = 0) ∧
    (∃ out, exampleSched.reset_max_thread_num 9 true = some out ∧
        out.calls.countP PoolCall.isLockEvent = 0) ∧
    (∃ out, exampleSched.reset_min_thread_num 0 true = some out ∧
        out.calls.countP PoolCall.isLockEvent = 0) :=
  C8_reconfig_never_acquires_lock exampleSched examplePool rfl
    16 4 128 8 2 9 0 true true true true true

end Doris
